import Mathlib

/-!
Verification development for the planly desktop client, focused on the
session and authentication subsystem: the durable token store
(desktop-app/src/services/auth.ts), the axios-based API gateway client with
its 401 refresh-and-retry interceptor (services/api-client.ts), the browser
OAuth flow with its loopback listener and 90-second deadline (main.ts), the
chat-window geometry validation (main.ts), and the window/authentication
state machine of the Electron main process (main.ts).

Machine integers of the source are modelled as Int; JavaScript Math.round
appears only applied to integer expressions or to halves, where it is the
identity respectively half-up rounding. Network outcomes are passed in as
explicit parameters, so every definition is executable and deterministic.
-/

/-! ## Token store (desktop-app/src/services/auth.ts)

The electron-store instance holds at most two keys, access_token and
refresh_token. We model the store as the pair of optional strings; a
missing key reads as none.
-/

structure AuthStore where
  access : Option String
  refresh : Option String
deriving DecidableEq

def AuthStore.getAccessToken (s : AuthStore) : Option String :=
  s.access

def AuthStore.getRefreshToken (s : AuthStore) : Option String :=
  s.refresh

def AuthStore.setTokens (_s : AuthStore) (accessToken refreshToken : String) : AuthStore :=
  ⟨some accessToken, some refreshToken⟩

def AuthStore.clear (_s : AuthStore) : AuthStore :=
  ⟨none, none⟩

/-- isAuthenticated() returns the double-negated truthiness of the stored
access token: null and the empty string are both falsy in JavaScript. -/
def AuthStore.isAuthenticated (s : AuthStore) : Bool :=
  match s.access with
  | some a => a != ""
  | none => false

/-- The store after a fresh install: neither key is present. -/
def emptyAuthStore : AuthStore :=
  ⟨none, none⟩

/-! ## API gateway client (services/api-client.ts)

refreshToken() reads the stored refresh token; a falsy value (missing key
or empty string) short-circuits to false with no network traffic.
Otherwise it posts to /auth/refresh.  In this first, coarse model the
serverResp parameter is the net outcome the awaiting try observes once
the refresh exchange has settled: some pair when the await resolves with
token data, none when it rejects into the catch.  The exchange itself is
not atomic — the POST travels through the intercepted axios instance and
a 401 rejection of the POST recursively re-enters refreshToken — and that
inner structure is modelled separately below by refreshTokenViaClient;
the coarse model is used where only the settled outcome matters (the
original request's retry discipline and the concurrent fan-out).
networkCalls counts the posts the coarse model attributes to the
exchange.
-/

structure RefreshResult where
  store : AuthStore
  ok : Bool
  networkCalls : Nat
deriving DecidableEq

def ApiClient.refreshToken (store : AuthStore) (serverResp : Option (String × String)) :
    RefreshResult :=
  match store.getRefreshToken with
  | none => ⟨store, false, 0⟩
  | some rt =>
    if rt == "" then ⟨store, false, 0⟩
    else
      match serverResp with
      | some (a, r) => ⟨store.setTokens a r, true, 1⟩
      | none => ⟨store.clear, false, 1⟩

/-! The response interceptor.  A rejected response with status 401 on a
config whose retried flag is unset marks the config, awaits
refreshToken(), and on success replays the original config (same object,
flag now set) through the same client; any other rejection is surfaced
unchanged to the caller.  We model one request as the interceptor loop
over the list of successive responses its attempts receive.
-/

inductive HttpResp where
  | ok (body : String)
  | err (status : Nat)
  | netErr
deriving DecidableEq

instance exceptDecEq {ε α : Type} [DecidableEq ε] [DecidableEq α] :
    DecidableEq (Except ε α) := fun a b =>
  match a, b with
  | .ok x, .ok y =>
    if h : x = y then .isTrue (by rw [h]) else .isFalse (by simp [h])
  | .error x, .error y =>
    if h : x = y then .isTrue (by rw [h]) else .isFalse (by simp [h])
  | .ok _, .error _ => .isFalse (by simp)
  | .error _, .ok _ => .isFalse (by simp)

structure RequestOutcome where
  store : AuthStore
  result : Except HttpResp String
  refreshCalls : Nat
  replays : Nat
deriving DecidableEq

def ApiClient.runRequest (store : AuthStore) (retried : Bool) (resps : List HttpResp)
    (refreshResp : Option (String × String)) : RequestOutcome :=
  match resps with
  | [] => ⟨store, .error .netErr, 0, 0⟩
  | resp :: rest =>
    match resp with
    | .ok b => ⟨store, .ok b, 0, 0⟩
    | .err s =>
      if s == 401 && !retried then
        let r := ApiClient.refreshToken store refreshResp
        if r.ok then
          let o := ApiClient.runRequest r.store true rest refreshResp
          ⟨o.store, o.result, r.networkCalls + o.refreshCalls, 1 + o.replays⟩
        else ⟨r.store, .error (.err s), r.networkCalls, 0⟩
      else ⟨store, .error (.err s), 0, 0⟩
    | .netErr => ⟨store, .error .netErr, 0, 0⟩

/-! ## Concurrent 401 failures

The event loop is single threaded; when N requests all receive their 401
rejections before any refresh response has arrived, each rejection
handler runs synchronously up to the awaited post inside refreshToken().
That first phase of refreshToken() (read the token, then issue the post)
never writes the store, and the ApiClient keeps no other shared state
about an in-flight refresh, so each handler performs the same read and
issues its own post.
-/

structure ClientWorld where
  store : AuthStore
  issuedRefreshCalls : Nat
deriving DecidableEq

/-- Whether refreshToken() reaches its network post: the stored refresh
token must be present and truthy. -/
def refreshIssuesCall (store : AuthStore) : Bool :=
  match store.getRefreshToken with
  | none => false
  | some rt => rt != ""

/-- Phase one of refreshToken(): the code before its await.  It reads the
store and, when the token is truthy, issues the post; the store writes in
refreshToken() all sit after the await, so this phase leaves it intact. -/
def refreshTokenPhase1 (w : ClientWorld) : ClientWorld × Bool :=
  if refreshIssuesCall w.store then
    ({ w with issuedRefreshCalls := w.issuedRefreshCalls + 1 }, true)
  else (w, false)

/-- Phase one of the 401 rejection handler for one request whose config
carries the given retried flag. -/
def on401Phase1 (w : ClientWorld) (retried : Bool) : ClientWorld × Bool :=
  if retried then (w, false) else refreshTokenPhase1 w

/-- N simultaneous 401 rejections, each on a fresh config, processed in
event-loop order before any refresh response arrives. -/
def concurrent401s (w : ClientWorld) : Nat → ClientWorld
  | 0 => w
  | n + 1 => concurrent401s (on401Phase1 w false).1 n

/-! ## logout() and the delete-account IPC handler

logout() posts best-effort and clears the store in every case: the catch
block swallows the network failure and the clear sits after the try.
deleteUser() clears only after its awaited delete succeeds; a rejection
propagates before the clear runs.  The settings:delete-account handler in
main.ts wraps deleteUser() and clears the store itself in its catch.
-/

def ApiClient.logout (store : AuthStore) (netOk : Bool) : AuthStore :=
  if netOk then store.clear else store.clear

def ApiClient.deleteUser (store : AuthStore) (netOk : Bool) : Except String AuthStore :=
  if netOk then .ok store.clear else .error "Delete account failed"

def deleteAccountHandler (store : AuthStore) (netOk : Bool) : AuthStore :=
  match ApiClient.deleteUser store netOk with
  | .ok cleared => cleared
  | .error _ => store.clear

/-! ## The refresh POST through the intercepted client (services/api-client.ts)

refreshToken() issues its POST with this.client, the same axios instance
whose response interceptor handles 401 rejections.  A 401 rejection of
the refresh POST is therefore intercepted on a fresh config: the retried
flag is set on that config, refreshToken() is invoked recursively, and on
its success the refresh POST is replayed once (a rejected replay carries
the flag and so falls through to the catch).  Only a network error or a
non-401 status rejection reaches the catch that clears the store and
resolves false directly.  The environment is the list of successive
responses the server gives to the refresh POSTs; a run returns none when
the client is still awaiting a response beyond that list, and otherwise
the resulting store, the boolean refreshToken() resolves with, the number
of refresh POSTs issued, and the unconsumed responses.
-/

inductive RefreshResp where
  | ok (accessToken refreshToken : String)
  | err (status : Nat)
  | netErr
deriving DecidableEq

structure RefreshRun where
  store : AuthStore
  ok : Bool
  posts : Nat
deriving DecidableEq

def refreshTokenViaClient (store : AuthStore) :
    List RefreshResp → Option (RefreshRun × List RefreshResp)
  | [] =>
    if refreshIssuesCall store then none
    else some (⟨store, false, 0⟩, [])
  | resp :: rest =>
    if refreshIssuesCall store then
      match resp with
      | .ok a r => some (⟨store.setTokens a r, true, 1⟩, rest)
      | .netErr => some (⟨store.clear, false, 1⟩, rest)
      | .err s =>
        if s == 401 then
          match refreshTokenViaClient store rest with
          | none => none
          | some (inner, rem) =>
            if inner.ok then
              match rem with
              | [] => none
              | replayResp :: rem2 =>
                match replayResp with
                | .ok a r =>
                  some (⟨inner.store.setTokens a r, true, 1 + inner.posts + 1⟩, rem2)
                | _ => some (⟨inner.store.clear, false, 1 + inner.posts + 1⟩, rem2)
            else some (⟨inner.store.clear, false, 1 + inner.posts⟩, rem)
        else some (⟨store.clear, false, 1⟩, rest)
    else some (⟨store, false, 0⟩, resp :: rest)

/-- The shape of every refresh run from a store whose refresh token is
truthy, once settled: at least one POST was issued, and a run that
resolves false leaves the store cleared. -/
def settledRefreshShape : Option (RefreshRun × List RefreshResp) → Prop
  | none => True
  | some (run, _) => 1 ≤ run.posts ∧ (run.ok = false → run.store = ⟨none, none⟩)

/-! ## Chat window geometry (main.ts)

getValidatedChatBounds() reads the persisted record, validates that all
four fields are numbers, clamps width and height into the fixed range and
the work area, then nudges x and y so that at least 100 logical units of
the rectangle stay inside the primary work area; a missing or malformed
record yields the computed default instead.  Saved fields are modelled as
Option Int: none stands for a value that is not a number.  All arithmetic
in the clamp branch is on integers, where Math.round is the identity; the
default x divides an integer by two, where Math.round rounds halves up.
-/

structure WorkArea where
  x : Int
  y : Int
  width : Int
  height : Int
deriving DecidableEq

structure SavedBounds where
  x : Option Int
  y : Option Int
  width : Option Int
  height : Option Int
deriving DecidableEq

structure ChatRect where
  x : Int
  y : Int
  width : Int
  height : Int
deriving DecidableEq

def CHAT_MIN_WIDTH : Int := 360
def CHAT_MAX_WIDTH : Int := 960
def CHAT_MIN_HEIGHT : Int := 72
def CHAT_MAX_HEIGHT : Int := 1200
def CHAT_DEFAULT_WIDTH : Int := 480
def CHAT_DEFAULT_HEIGHT : Int := 72
def CHAT_SCREEN_MARGIN : Int := 32

/-- Math.round (k / 2) for an integer k: JavaScript rounds halves toward
positive infinity, which floor division of k + 1 by 2 reproduces. -/
def mathRoundHalf (k : Int) : Int :=
  (k + 1).fdiv 2

def chatDefaultBounds (wa : WorkArea) : ChatRect :=
  { x := mathRoundHalf (wa.width - CHAT_DEFAULT_WIDTH) + wa.x
    y := wa.y + wa.height - CHAT_DEFAULT_HEIGHT - CHAT_SCREEN_MARGIN
    width := CHAT_DEFAULT_WIDTH
    height := CHAT_DEFAULT_HEIGHT }

def getValidatedChatBounds (saved : Option SavedBounds) (wa : WorkArea) : ChatRect :=
  match saved with
  | some sb =>
    match sb.x, sb.y, sb.width, sb.height with
    | some sx, some sy, some sw, some sh =>
      let w := max CHAT_MIN_WIDTH (min sw (min CHAT_MAX_WIDTH wa.width))
      let h := max CHAT_MIN_HEIGHT (min sh (min CHAT_MAX_HEIGHT wa.height))
      let minVisible : Int := 100
      let x1 := if sx + w < wa.x + minVisible then wa.x else sx
      let x2 := if x1 > wa.x + wa.width - minVisible then wa.x + wa.width - w else x1
      let y1 := if sy < wa.y then wa.y else sy
      let y2 := if y1 > wa.y + wa.height - minVisible then wa.y + wa.height - h else y1
      ⟨x2, y2, w, h⟩
    | _, _, _, _ => chatDefaultBounds wa
  | none => chatDefaultBounds wa

/-! ## Browser OAuth teardown and deadline (main.ts)

cleanupOAuth() clears the module-level timer handle and closes the
module-level listener handle, nulling both; each guard makes the body a
no-op when the handle is already null.  The 90-second setTimeout callback
can only run while the timer handle is live (clearTimeout prevents it);
when it runs, it calls cleanupOAuth() and sends exactly one oauth:error
signal.  Signals are accumulated in a list to make their count visible.
-/

def OAUTH_TIMEOUT_MS : Nat := 90000

def oauthTimeoutMsg : String :=
  "OAuth timed out - no response within 90 seconds"

structure OAuthState where
  serverOpen : Bool
  timerPending : Bool
  errorsSignaled : List String
deriving DecidableEq

def cleanupOAuth (s : OAuthState) : OAuthState :=
  let s1 := if s.timerPending then { s with timerPending := false } else s
  if s1.serverOpen then { s1 with serverOpen := false } else s1

def fireOAuthTimeout (s : OAuthState) : OAuthState :=
  if s.timerPending then
    let s1 := cleanupOAuth s
    { s1 with errorsSignaled := s1.errorsSignaled ++ [oauthTimeoutMsg] }
  else s

/-! ## Main-process window and authentication state machine (main.ts)

State: the token store, the isAuthenticated module flag, visibility of the
chat overlay and of the main window, and the last navigate target sent to
the renderer.  Events are the reachable entry points that touch this
state: the chat toggle (shortcut, SIGUSR1 or tray), the tray logout item,
the settings:logout and settings:delete-account handlers, the auth:logout
handler, a completed authentication (login, register or OAuth callback
followed by onAuthSuccess), and a refresh settling inside the gateway
client — reachable from any request through apiClient that hits a 401,
for example agent:process — which overwrites the session on success and
clears it on failure with no window, flag or navigation code attached.
-/

structure AppState where
  store : AuthStore
  isAuthenticated : Bool
  chatVisible : Bool
  mainVisible : Bool
  nav : Option String
deriving DecidableEq

inductive AppEvent where
  | toggleChat
  | trayLogout
  | settingsLogout
  | deleteAccount (netOk : Bool)
  | ipcAuthLogout
  | authSuccess (accessToken refreshToken : String)
  | refreshSuccess (accessToken refreshToken : String)
  | refreshFailure
deriving DecidableEq

/-- toggleChatWindow(): a visible chat hides; otherwise an unauthenticated
user is routed to login with the main window raised, and an authenticated
one gets the chat shown with the main window hidden. -/
def toggleChatWindow (s : AppState) : AppState :=
  if s.chatVisible then { s with chatVisible := false }
  else if !s.isAuthenticated then
    { s with nav := some "login", mainVisible := true }
  else
    { s with chatVisible := true, mainVisible := false }

/-- The tray Logout item: fires apiClient.logout() (which clears the
store), drops the flag, hides the chat, navigates to login and raises the
main window.  The item reads Login when unauthenticated and then only
navigates. -/
def trayMenuClick (s : AppState) : AppState :=
  if s.isAuthenticated then
    { store := ApiClient.logout s.store true
      isAuthenticated := false
      chatVisible := false
      mainVisible := true
      nav := some "login" }
  else { s with nav := some "login", mainVisible := true }

def settingsLogoutHandler (s : AppState) : AppState :=
  { store := ApiClient.logout s.store true
    isAuthenticated := false
    chatVisible := false
    mainVisible := true
    nav := some "login" }

def settingsDeleteAccountHandler (s : AppState) (netOk : Bool) : AppState :=
  { store := deleteAccountHandler s.store netOk
    isAuthenticated := false
    chatVisible := false
    mainVisible := true
    nav := some "login" }

/-- The auth:logout IPC handler clears the store and the flag and rebuilds
the tray menu; it does not touch the chat window or navigate. -/
def ipcAuthLogoutHandler (s : AppState) : AppState :=
  { s with store := s.store.clear, isAuthenticated := false }

/-- A successful login, registration or OAuth callback: tokens are stored,
then onAuthSuccess() sets the flag, shows the main window and ends on the
home view. -/
def onAuthSuccess (s : AppState) (accessToken refreshToken : String) : AppState :=
  { s with
    store := s.store.setTokens accessToken refreshToken
    isAuthenticated := true
    mainVisible := true
    nav := some "home" }

/-- A refresh that settles inside the gateway client: refreshToken()
overwrites the session on success and its catch clears the session on
failure.  Neither path touches the isAuthenticated flag, the windows or
navigation: the interceptor runs the refresh with no UI code attached. -/
def clientRefreshSettle (s : AppState) (outcome : Option (String × String)) : AppState :=
  match outcome with
  | some (a, r) => { s with store := s.store.setTokens a r }
  | none => { s with store := s.store.clear }

def appStep (s : AppState) : AppEvent → AppState
  | .toggleChat => toggleChatWindow s
  | .trayLogout => trayMenuClick s
  | .settingsLogout => settingsLogoutHandler s
  | .deleteAccount netOk => settingsDeleteAccountHandler s netOk
  | .ipcAuthLogout => ipcAuthLogoutHandler s
  | .authSuccess a r => onAuthSuccess s a r
  | .refreshSuccess a r => clientRefreshSettle s (some (a, r))
  | .refreshFailure => clientRefreshSettle s none

def appRun (s : AppState) (events : List AppEvent) : AppState :=
  events.foldl appStep s

/-- Process start: empty store, unauthenticated, chat hidden, main window
showing the splash view. -/
def appInit : AppState :=
  ⟨emptyAuthStore, false, false, true, none⟩

/-! ## Token store operation sequences

The store is only ever written wholesale: setTokens writes both keys,
clear deletes both.  Sequences of these writes model every mutation the
gateway client, the OAuth controller and the orchestrator perform.
-/

inductive StoreOp where
  | setTokens (accessToken refreshToken : String)
  | clear
deriving DecidableEq

def applyStoreOp (s : AuthStore) : StoreOp → AuthStore
  | .setTokens a r => s.setTokens a r
  | .clear => s.clear

def applyStoreOps (s : AuthStore) (ops : List StoreOp) : AuthStore :=
  ops.foldl applyStoreOp s

/-- The session invariant: both tokens present and non-empty, or neither
key present. -/
def sessionAllOrNothing (s : AuthStore) : Bool :=
  match s.access, s.refresh with
  | some a, some r => a != "" && r != ""
  | none, none => true
  | _, _ => false

/-- A write of a session whose two tokens are non-empty, or a clear. -/
def validStoreOp : StoreOp → Bool
  | .setTokens a r => a != "" && r != ""
  | .clear => true

/-- The auth-gating invariant the main process maintains away from the
auth:logout IPC handler: a visible chat overlay implies the
isAuthenticated flag.  The stronger form — a stored session as well — is
violated by a failed refresh inside the gateway client, which clears the
store without touching the windows or the flag. -/
def chatImpliesAuth (s : AppState) : Prop :=
  s.chatVisible = true → s.isAuthenticated = true

/-! ## Lemmas about the gateway client -/

theorem refreshToken_networkCalls_le_one (store : AuthStore)
    (rr : Option (String × String)) :
    (ApiClient.refreshToken store rr).networkCalls ≤ 1 := by
  unfold ApiClient.refreshToken
  cases h : store.getRefreshToken with
  | none => simp
  | some rt =>
    by_cases he : rt == ""
    · simp [he]
    · cases rr with
      | none => simp [he]
      | some p => simp [he]

theorem runRequest_retried_frame (store : AuthStore) (resps : List HttpResp)
    (rr : Option (String × String)) :
    (ApiClient.runRequest store true resps rr).replays = 0 ∧
      (ApiClient.runRequest store true resps rr).refreshCalls = 0 ∧
      (ApiClient.runRequest store true resps rr).store = store := by
  cases resps with
  | nil => simp [ApiClient.runRequest]
  | cons r rest => cases r <;> simp [ApiClient.runRequest]

theorem runRequest_retried_err401 (store : AuthStore) (rest : List HttpResp)
    (rr : Option (String × String)) :
    (ApiClient.runRequest store true (HttpResp.err 401 :: rest) rr).result =
      .error (.err 401) := by
  simp [ApiClient.runRequest]

theorem runRequest_first401 (store : AuthStore) (rest : List HttpResp)
    (rr : Option (String × String)) :
    ApiClient.runRequest store false (HttpResp.err 401 :: rest) rr =
      if (ApiClient.refreshToken store rr).ok then
        ⟨(ApiClient.runRequest (ApiClient.refreshToken store rr).store true rest rr).store,
         (ApiClient.runRequest (ApiClient.refreshToken store rr).store true rest rr).result,
         (ApiClient.refreshToken store rr).networkCalls +
           (ApiClient.runRequest (ApiClient.refreshToken store rr).store true rest rr).refreshCalls,
         1 + (ApiClient.runRequest (ApiClient.refreshToken store rr).store true rest rr).replays⟩
      else
        ⟨(ApiClient.refreshToken store rr).store, .error (.err 401),
         (ApiClient.refreshToken store rr).networkCalls, 0⟩ := by
  simp [ApiClient.runRequest]

theorem concurrent401s_store_and_count (n : Nat) : ∀ w : ClientWorld,
    (concurrent401s w n).store = w.store ∧
      (concurrent401s w n).issuedRefreshCalls =
        w.issuedRefreshCalls + (if refreshIssuesCall w.store then n else 0) := by
  induction n with
  | zero => intro w; simp [concurrent401s]
  | succ n ih =>
    intro w
    by_cases hc : refreshIssuesCall w.store
    · have hstep : (on401Phase1 w false).1 =
        { w with issuedRefreshCalls := w.issuedRefreshCalls + 1 } := by
        simp [on401Phase1, refreshTokenPhase1, hc]
      rcases ih (on401Phase1 w false).1 with ⟨h1, h2⟩
      rw [hstep] at h1 h2
      refine ⟨?_, ?_⟩
      · simpa [concurrent401s, hstep] using h1
      · have : (concurrent401s w (n + 1)).issuedRefreshCalls =
          w.issuedRefreshCalls + 1 + (if refreshIssuesCall w.store then n else 0) := by
          simpa [concurrent401s, hstep, hc] using h2
        rw [this]
        simp [hc]
        omega
    · have hstep : (on401Phase1 w false).1 = w := by
        simp [on401Phase1, refreshTokenPhase1, hc]
      rcases ih (on401Phase1 w false).1 with ⟨h1, h2⟩
      rw [hstep] at h1 h2
      refine ⟨?_, ?_⟩
      · simpa [concurrent401s, hstep] using h1
      · simpa [concurrent401s, hstep, hc] using h2

/-- Claim C1, counterexample: with a stored session, two requests that
fail with 401 at the same instant issue two refresh calls against
/auth/refresh, not one — the interceptor has no single-flight guard. -/
theorem singleFlightRefreshCounterexample :
    (concurrent401s ⟨⟨some "at0", some "rt0"⟩, 0⟩ 2).issuedRefreshCalls = 2 ∧
      ¬((concurrent401s ⟨⟨some "at0", some "rt0"⟩, 0⟩ 2).issuedRefreshCalls = 1) := by
  constructor
  · rfl
  · decide

/-- Claim C1, amended: when N requests fail concurrently with a 401
response, each one whose config is fresh invokes refreshToken()
independently, so N refresh calls are issued against /auth/refresh (none
when the stored refresh token is absent or empty); the store itself is
untouched before the refresh responses arrive. -/
theorem concurrent401RefreshCallCount (w : ClientWorld) (n : Nat) :
    (concurrent401s w n).store = w.store ∧
      (concurrent401s w n).issuedRefreshCalls =
        w.issuedRefreshCalls + (if refreshIssuesCall w.store then n else 0) :=
  concurrent401s_store_and_count n w

/-- Claim C2: a request is refreshed-and-replayed at most once per expiry;
when the replayed attempt also returns 401, that second 401 is surfaced to
the caller and no second retry or refresh happens. -/
theorem atMostOneRetryPerExpiry (store : AuthStore) (resps rest : List HttpResp)
    (rr : Option (String × String)) :
    (ApiClient.runRequest store false resps rr).replays ≤ 1 ∧
      (ApiClient.runRequest store false resps rr).refreshCalls ≤ 1 ∧
      (ApiClient.runRequest store false
          (HttpResp.err 401 :: HttpResp.err 401 :: rest) rr).result =
        .error (.err 401) ∧
      (ApiClient.runRequest store false
          (HttpResp.err 401 :: HttpResp.err 401 :: rest) rr).replays ≤ 1 := by
  have hgen : ∀ (rs : List HttpResp),
      (ApiClient.runRequest store false rs rr).replays ≤ 1 ∧
        (ApiClient.runRequest store false rs rr).refreshCalls ≤ 1 := by
    intro rs
    cases rs with
    | nil => simp [ApiClient.runRequest]
    | cons r rest2 =>
      cases r with
      | ok b => simp [ApiClient.runRequest]
      | netErr => simp [ApiClient.runRequest]
      | err s =>
        by_cases h4 : s == 401
        · by_cases hok : (ApiClient.refreshToken store rr).ok
          · have hz := runRequest_retried_frame
              (ApiClient.refreshToken store rr).store rest2 rr
            simp [ApiClient.runRequest, h4, hok, hz.1, hz.2.1]
            exact refreshToken_networkCalls_le_one store rr
          · simp [ApiClient.runRequest, h4, hok]
            exact refreshToken_networkCalls_le_one store rr
        · simp [ApiClient.runRequest, h4]
  refine ⟨(hgen resps).1, (hgen resps).2, ?_, ?_⟩
  · rw [runRequest_first401]
    by_cases hok : (ApiClient.refreshToken store rr).ok
    · simp [hok]
      exact runRequest_retried_err401 (ApiClient.refreshToken store rr).store rest rr
    · simp [hok]
  · exact (hgen (HttpResp.err 401 :: HttpResp.err 401 :: rest)).1

/-- Claim C3, counterexample: for the saved record entirely off every
display, x -5000, y -5000, width 480, height 72, against the primary work
area 0 0 1920 1080, getValidatedChatBounds returns the clamped rectangle
0 0 480 72 and not the computed default, which is 720 976 480 72. -/
theorem offscreenBoundsDefaultCounterexample :
    getValidatedChatBounds
        (some ⟨some (-5000), some (-5000), some 480, some 72⟩) ⟨0, 0, 1920, 1080⟩ =
      ⟨0, 0, 480, 72⟩ ∧
      getValidatedChatBounds
          (some ⟨some (-5000), some (-5000), some 480, some 72⟩) ⟨0, 0, 1920, 1080⟩ ≠
        chatDefaultBounds ⟨0, 0, 1920, 1080⟩ := by
  constructor
  · decide
  · decide

/-- Claim C3, amended: a saved bounds record that is entirely off every
current display is not discarded; its position is clamped back into the
work area (the example lands at 0 0 480 72, partially visible), while the
computed default, 720 976 480 72 here, is produced only for a missing or
malformed record. -/
theorem offscreenBoundsClamped :
    getValidatedChatBounds
        (some ⟨some (-5000), some (-5000), some 480, some 72⟩) ⟨0, 0, 1920, 1080⟩ =
      ⟨0, 0, 480, 72⟩ ∧
      chatDefaultBounds ⟨0, 0, 1920, 1080⟩ = ⟨720, 976, 480, 72⟩ ∧
      getValidatedChatBounds none ⟨0, 0, 1920, 1080⟩ = ⟨720, 976, 480, 72⟩ := by
  refine ⟨by decide, by decide, by decide⟩

theorem refreshViaClient_notIssued (store : AuthStore) (resps : List RefreshResp)
    (hrt : refreshIssuesCall store = false) :
    refreshTokenViaClient store resps = some (⟨store, false, 0⟩, resps) := by
  cases resps with
  | nil => simp [refreshTokenViaClient, hrt]
  | cons resp rest => simp [refreshTokenViaClient, hrt]

theorem refreshViaClient_shape (store : AuthStore) (resps : List RefreshResp)
    (hrt : refreshIssuesCall store = true) :
    settledRefreshShape (refreshTokenViaClient store resps) := by
  cases resps with
  | nil => simp [refreshTokenViaClient, hrt, settledRefreshShape]
  | cons resp rest =>
    cases resp with
    | ok a r => simp [refreshTokenViaClient, hrt, settledRefreshShape]
    | netErr =>
      simp [refreshTokenViaClient, hrt, settledRefreshShape, AuthStore.clear]
    | err s =>
      by_cases h4 : (s == 401) = true
      · cases hinner : refreshTokenViaClient store rest with
        | none => simp [refreshTokenViaClient, hrt, h4, hinner, settledRefreshShape]
        | some pr =>
          obtain ⟨inner, rem1⟩ := pr
          by_cases hio : inner.ok = true
          · cases rem1 with
            | nil =>
              simp [refreshTokenViaClient, hrt, h4, hinner, hio, settledRefreshShape]
            | cons replayResp rem2 =>
              cases replayResp <;>
                simp [refreshTokenViaClient, hrt, h4, hinner, hio, settledRefreshShape,
                  AuthStore.clear]
          · have hio2 : inner.ok = false := by
              cases hb : inner.ok with
              | false => rfl
              | true => exact absurd hb hio
            simp [refreshTokenViaClient, hrt, h4, hinner, hio2, settledRefreshShape,
              AuthStore.clear]
      · have h42 : (s == 401) = false := by
          cases hb : (s == 401) with
          | false => rfl
          | true => exact absurd hb h4
        simp [refreshTokenViaClient, hrt, h42, settledRefreshShape, AuthStore.clear]

theorem refreshViaClient_401_retries (store : AuthStore) (rest rem : List RefreshResp)
    (run : RefreshRun) (hrt : refreshIssuesCall store = true)
    (h : refreshTokenViaClient store (RefreshResp.err 401 :: rest) = some (run, rem)) :
    2 ≤ run.posts := by
  have hshape := refreshViaClient_shape store rest hrt
  cases hinner : refreshTokenViaClient store rest with
  | none => simp [refreshTokenViaClient, hrt, hinner] at h
  | some pr =>
    obtain ⟨inner, rem1⟩ := pr
    rw [hinner] at hshape
    simp only [settledRefreshShape] at hshape
    have hip : 1 ≤ inner.posts := hshape.1
    by_cases hio : inner.ok = true
    · cases rem1 with
      | nil => simp [refreshTokenViaClient, hrt, hinner, hio] at h
      | cons replayResp rem2 =>
        cases replayResp <;>
          · simp [refreshTokenViaClient, hrt, hinner, hio] at h
            obtain ⟨h1, h2⟩ := h
            subst h1
            show 2 ≤ 1 + inner.posts + 1
            omega
    · have hio2 : inner.ok = false := by
        cases hb : inner.ok with
        | false => rfl
        | true => exact absurd hb hio
      simp [refreshTokenViaClient, hrt, hinner, hio2] at h
      obtain ⟨h1, h2⟩ := h
      subst h1
      show 2 ≤ 1 + inner.posts
      omega

/-- Claim C4, counterexample: a refresh POST rejected with 401 — the
response documented for an invalid or expired refresh token — does not
reach the clearing catch: with only that rejection available the client
is left awaiting a further refresh POST that the interceptor recursively
issued (no cleared store, no surfaced error), and with two 401 rejections
followed by a network error the client has issued three refresh POSTs in
total before clearing, contradicting clear-and-surface with no further
retry. -/
theorem refreshExhaustionCounterexample :
    refreshTokenViaClient ⟨some "at2", some "rt2"⟩ [RefreshResp.err 401] = none ∧
      refreshTokenViaClient ⟨some "at2", some "rt2"⟩
          [RefreshResp.err 401, RefreshResp.err 401, RefreshResp.netErr] =
        some (⟨⟨none, none⟩, false, 3⟩, []) := by
  constructor
  · rfl
  · rfl

/-- Claim C4, amended: a refresh POST rejected with a non-401 status or a
network error reaches the catch, which clears both keys of the token
store and resolves false after exactly that one POST; every settled
failing refresh, whatever the rejection sequence, leaves the store
cleared.  A refresh POST rejected with 401, however, re-enters the
response interceptor on a fresh config, which recursively invokes
refreshToken(): at least one further refresh POST is issued (two or more
in total) before the run can settle. -/
theorem refreshExhaustionAmended (tok rtk : String) (hne : rtk ≠ "") :
    (∀ s : Nat, s ≠ 401 →
      refreshTokenViaClient ⟨some tok, some rtk⟩ [RefreshResp.err s] =
        some (⟨⟨none, none⟩, false, 1⟩, [])) ∧
      refreshTokenViaClient ⟨some tok, some rtk⟩ [RefreshResp.netErr] =
        some (⟨⟨none, none⟩, false, 1⟩, []) ∧
      (∀ (rest rem : List RefreshResp) (run : RefreshRun),
        refreshTokenViaClient ⟨some tok, some rtk⟩ (RefreshResp.err 401 :: rest) =
          some (run, rem) → 2 ≤ run.posts) ∧
      (∀ (store : AuthStore) (resps rem : List RefreshResp) (run : RefreshRun),
        refreshTokenViaClient store resps = some (run, rem) → run.ok = false →
        1 ≤ run.posts → run.store = ⟨none, none⟩) := by
  have hrt : refreshIssuesCall ⟨some tok, some rtk⟩ = true := by
    simp [refreshIssuesCall, AuthStore.getRefreshToken]
    exact hne
  refine ⟨?_, ?_, ?_, ?_⟩
  · intro s hs
    have h42 : (s == 401) = false := by
      simp only [beq_eq_false_iff_ne]
      exact hs
    simp [refreshTokenViaClient, hrt, h42, AuthStore.clear]
  · simp [refreshTokenViaClient, hrt, AuthStore.clear]
  · intro rest rem run h
    exact refreshViaClient_401_retries ⟨some tok, some rtk⟩ rest rem run hrt h
  · intro store resps rem run h hok hposts
    by_cases hrt2 : refreshIssuesCall store = true
    · have hshape := refreshViaClient_shape store resps hrt2
      rw [h] at hshape
      simp only [settledRefreshShape] at hshape
      exact hshape.2 hok
    · have hrt3 : refreshIssuesCall store = false := by
        cases hb : refreshIssuesCall store with
        | false => rfl
        | true => exact absurd hb hrt2
      rw [refreshViaClient_notIssued store resps hrt3] at h
      simp at h
      obtain ⟨h1, h2⟩ := h
      subst h1
      simp at hposts

/-- Claim C4, witness: a concrete network-failed refresh clears both keys
with a single POST. -/
theorem refreshExhaustionAmendedWitness :
    ("rt3" : String) ≠ "" ∧
      refreshTokenViaClient ⟨some "at3", some "rt3"⟩ [RefreshResp.netErr] =
        some (⟨⟨none, none⟩, false, 1⟩, []) :=
  ⟨by decide, (refreshExhaustionAmended "at3" "rt3" (by decide)).2.1⟩


/-- Claim C5: logout() and the settings:delete-account handler clear the
locally stored credentials for every outcome of the remote call, so
isAuthenticated() is false immediately after either completes. -/
theorem localLogoutResilience (store : AuthStore) (netOk : Bool) :
    (ApiClient.logout store netOk).isAuthenticated = false ∧
      (deleteAccountHandler store netOk).isAuthenticated = false ∧
      ApiClient.logout store netOk = ⟨none, none⟩ ∧
      deleteAccountHandler store netOk = ⟨none, none⟩ := by
  cases netOk <;>
    simp [ApiClient.logout, deleteAccountHandler, ApiClient.deleteUser,
      AuthStore.clear, AuthStore.isAuthenticated]

/-- Claim C6, counterexample: two reachable traces refute the claim.
After a successful login, showing the chat and then the auth:logout IPC
call, the chat overlay is still visible while the session is gone and the
flag is down, and invoking the toggle in that state hides the chat
without routing to the login surface; after a successful login, showing
the chat and then a refresh that fails inside the gateway client, the
chat overlay is still visible while the stored session is gone and the
flag is still up. -/
theorem chatVisibleWithoutSessionCounterexample :
    ((appRun appInit [.authSuccess "a" "r", .toggleChat, .ipcAuthLogout]).chatVisible = true ∧
      (appRun appInit [.authSuccess "a" "r", .toggleChat, .ipcAuthLogout]).store.access = none ∧
      (appRun appInit [.authSuccess "a" "r", .toggleChat, .ipcAuthLogout]).isAuthenticated = false ∧
      (appStep (appRun appInit [.authSuccess "a" "r", .toggleChat, .ipcAuthLogout])
          .toggleChat).nav ≠ some "login") ∧
    ((appRun appInit [.authSuccess "a" "r", .toggleChat, .refreshFailure]).chatVisible = true ∧
      (appRun appInit [.authSuccess "a" "r", .toggleChat, .refreshFailure]).store.access = none ∧
      (appRun appInit [.authSuccess "a" "r", .toggleChat, .refreshFailure]).isAuthenticated = true) := by
  refine ⟨⟨rfl, rfl, rfl, ?_⟩, rfl, rfl, rfl⟩
  decide

theorem appStep_preserves_chatImpliesAuth (s : AppState) (e : AppEvent)
    (hs : chatImpliesAuth s) (he : e ≠ .ipcAuthLogout) :
    chatImpliesAuth (appStep s e) := by
  obtain ⟨store, auth, chat, mainv, nav⟩ := s
  cases e with
  | ipcAuthLogout => exact absurd rfl he
  | authSuccess a r => intro _; rfl
  | refreshSuccess a r => intro h; exact hs h
  | refreshFailure => intro h; exact hs h
  | settingsLogout => intro h; simp [appStep, settingsLogoutHandler] at h
  | deleteAccount netOk => intro h; simp [appStep, settingsDeleteAccountHandler] at h
  | trayLogout =>
    cases auth with
    | true => intro h; simp [appStep, trayMenuClick] at h
    | false => intro h; exact hs h
  | toggleChat =>
    cases chat with
    | true => intro h; simp [appStep, toggleChatWindow] at h
    | false =>
      cases auth with
      | true => intro _; rfl
      | false => intro h; simp [appStep, toggleChatWindow] at h

theorem appRun_preserves_chatImpliesAuth (events : List AppEvent) : ∀ s : AppState,
    chatImpliesAuth s → AppEvent.ipcAuthLogout ∉ events →
    chatImpliesAuth (appRun s events) := by
  induction events with
  | nil => intro s hs _; simpa [appRun] using hs
  | cons e es ih =>
    intro s hs hmem
    have he : e ≠ .ipcAuthLogout := by
      intro hcontra; exact hmem (by simp [hcontra])
    have hes : AppEvent.ipcAuthLogout ∉ es := by
      intro hcontra; exact hmem (by simp [hcontra])
    have hstep := appStep_preserves_chatImpliesAuth s e hs he
    simpa [appRun] using ih (appStep s e) hstep hes

/-- Claim C6, amended: the activation toggle never shows the chat overlay
while the isAuthenticated flag is down, and when the overlay is hidden it
routes the UI to the login surface; along every event sequence that does
not use the auth:logout IPC handler, a visible chat overlay implies the
isAuthenticated flag.  The stronger reading of the claim — a visible chat
overlay implies a stored Session — is false of the program: auth:logout
clears the session and the flag without hiding a visible chat, and a
failed refresh inside the gateway client clears the stored session while
the chat stays visible and the flag stays up. -/
theorem authGatedChatAmended :
    (∀ s : AppState, s.isAuthenticated = false →
      (appStep s .toggleChat).chatVisible = false ∧
        (s.chatVisible = false → (appStep s .toggleChat).nav = some "login")) ∧
      (∀ events : List AppEvent, AppEvent.ipcAuthLogout ∉ events →
        (appRun appInit events).chatVisible = true →
        (appRun appInit events).isAuthenticated = true) := by
  constructor
  · intro s ha
    by_cases hv : s.chatVisible = true
    · constructor
      · simp [appStep, toggleChatWindow, hv]
      · intro h; rw [h] at hv; exact absurd hv (by simp)
    · have hv2 : s.chatVisible = false := by
        cases hx : s.chatVisible
        · rfl
        · exact absurd hx hv
      constructor
      · simp [appStep, toggleChatWindow, hv2, ha]
      · intro _; simp [appStep, toggleChatWindow, hv2, ha]
  · intro events hmem hv
    have hinit : chatImpliesAuth appInit := by
      intro h; simp [appInit] at h
    exact appRun_preserves_chatImpliesAuth events appInit hinit hmem hv

/-- Claim C6, witness: from the initial unauthenticated state the toggle
navigates to login, and the initial state satisfies the gate. -/
theorem authGatedChatAmendedWitness :
    (appStep appInit .toggleChat).nav = some "login" ∧
      appInit.isAuthenticated = false :=
  ⟨((authGatedChatAmended.1 appInit rfl).2 rfl), rfl⟩


/-- Claim C7: OAuth teardown is idempotent — tearing down an
already-closed listener and an already-cleared timer is a no-op and never
signals an error — and when the 90000 ms deadline fires on a pending
timer, exactly one timeout error is signaled while both the listener and
the timer are torn down, after which a repeated firing or teardown changes
nothing. -/
theorem oauthTeardownIdempotentTimeout (s : OAuthState) (so : Bool)
    (errs : List String) :
    cleanupOAuth (cleanupOAuth s) = cleanupOAuth s ∧
      cleanupOAuth ⟨false, false, errs⟩ = ⟨false, false, errs⟩ ∧
      (cleanupOAuth s).errorsSignaled = s.errorsSignaled ∧
      fireOAuthTimeout ⟨so, true, errs⟩ = ⟨false, false, errs ++ [oauthTimeoutMsg]⟩ ∧
      fireOAuthTimeout ⟨so, false, errs⟩ = ⟨so, false, errs⟩ ∧
      cleanupOAuth (fireOAuthTimeout ⟨so, true, errs⟩) =
        fireOAuthTimeout ⟨so, true, errs⟩ ∧
      fireOAuthTimeout (fireOAuthTimeout ⟨so, true, errs⟩) =
        fireOAuthTimeout ⟨so, true, errs⟩ ∧
      OAUTH_TIMEOUT_MS = 90000 := by
  obtain ⟨sv, tm, es⟩ := s
  cases sv <;> cases tm <;> cases so <;>
    simp [cleanupOAuth, fireOAuthTimeout, OAUTH_TIMEOUT_MS]

theorem applyStoreOp_preserves_allOrNothing (s : AuthStore) (op : StoreOp)
    (_hs : sessionAllOrNothing s = true) (hop : validStoreOp op = true) :
    sessionAllOrNothing (applyStoreOp s op) = true := by
  cases op with
  | setTokens a r =>
    simp [validStoreOp] at hop
    simp [applyStoreOp, AuthStore.setTokens, sessionAllOrNothing, hop]
  | clear => simp [applyStoreOp, AuthStore.clear, sessionAllOrNothing]

theorem applyStoreOps_preserves_allOrNothing (ops : List StoreOp) : ∀ s : AuthStore,
    sessionAllOrNothing s = true → (∀ op ∈ ops, validStoreOp op = true) →
    sessionAllOrNothing (applyStoreOps s ops) = true := by
  induction ops with
  | nil => intro s hs _; simpa [applyStoreOps] using hs
  | cons op rest ih =>
    intro s hs hops
    have hop : validStoreOp op = true := hops op (by simp)
    have hrest : ∀ o ∈ rest, validStoreOp o = true := fun o ho => hops o (by simp [ho])
    have hstep := applyStoreOp_preserves_allOrNothing s op hs hop
    simpa [applyStoreOps] using ih (applyStoreOp s op) hstep hrest

/-- Claim C8: starting from the empty store, any sequence of setTokens
writes with non-empty tokens and clears leaves the store holding either
both tokens non-empty or neither key; no partial session is ever
persisted. -/
theorem sessionAllOrNothingInvariant (ops : List StoreOp)
    (hops : ∀ op ∈ ops, validStoreOp op = true) :
    sessionAllOrNothing (applyStoreOps emptyAuthStore ops) = true :=
  applyStoreOps_preserves_allOrNothing ops emptyAuthStore (by rfl) hops

/-- Claim C8, witness on a concrete write-clear-write sequence. -/
theorem sessionAllOrNothingInvariantWitness :
    sessionAllOrNothing
      (applyStoreOps emptyAuthStore
        [.setTokens "a1" "r1", .clear, .setTokens "a2" "r2"]) = true :=
  sessionAllOrNothingInvariant [.setTokens "a1" "r1", .clear, .setTokens "a2" "r2"]
    (by decide)

/-- Claim C9: with no stored refresh token, refreshToken() returns false
immediately, issues no network call and leaves the store untouched, any
stored access token included. -/
theorem refreshNoTokenShortCircuit (store : AuthStore)
    (rr : Option (String × String)) (h : store.refresh = none) :
    ApiClient.refreshToken store rr = ⟨store, false, 0⟩ := by
  unfold ApiClient.refreshToken AuthStore.getRefreshToken
  rw [h]

/-- Claim C9, witness: the access token "keep" survives and no call is
issued. -/
theorem refreshNoTokenShortCircuitWitness :
    (⟨some "keep", none⟩ : AuthStore).refresh = none ∧
      ApiClient.refreshToken ⟨some "keep", none⟩ (some ("a", "r")) =
        ⟨⟨some "keep", none⟩, false, 0⟩ :=
  ⟨rfl, refreshNoTokenShortCircuit ⟨some "keep", none⟩ (some ("a", "r")) rfl⟩

/-- Claim C10: when no bounds record is saved, or any saved field is not a
number, getValidatedChatBounds returns the computed default: width 480 and
height 72, horizontally centered in the work area, with its bottom edge 32
logical units above the bottom of the work area. -/
theorem malformedBoundsDefault (wa : WorkArea) (saved : Option SavedBounds)
    (h : saved = none ∨ ∃ sb, saved = some sb ∧
      (sb.x = none ∨ sb.y = none ∨ sb.width = none ∨ sb.height = none)) :
    getValidatedChatBounds saved wa = chatDefaultBounds wa ∧
      chatDefaultBounds wa =
        ⟨mathRoundHalf (wa.width - 480) + wa.x, wa.y + wa.height - 72 - 32, 480, 72⟩ := by
  constructor
  · rcases h with hno | ⟨sb, hsb, hfield⟩
    · rw [hno]; rfl
    · rw [hsb]
      obtain ⟨bx, by2, bw, bh⟩ := sb
      cases bx <;> cases by2 <;> cases bw <;> cases bh <;>
        first
          | rfl
          | (rcases hfield with hf | hf | hf | hf <;> simp at hf)
  · simp [chatDefaultBounds, CHAT_DEFAULT_WIDTH, CHAT_DEFAULT_HEIGHT,
      CHAT_SCREEN_MARGIN]

/-- Claim C10, witness: a record whose x field is not a number, against
the 1920 by 1080 work area, yields the default 720 976 480 72. -/
theorem malformedBoundsDefaultWitness :
    getValidatedChatBounds (some ⟨none, some 5, some 480, some 72⟩)
        ⟨0, 0, 1920, 1080⟩ = chatDefaultBounds ⟨0, 0, 1920, 1080⟩ ∧
      chatDefaultBounds ⟨0, 0, 1920, 1080⟩ = ⟨720, 976, 480, 72⟩ :=
  ⟨(malformedBoundsDefault ⟨0, 0, 1920, 1080⟩ (some ⟨none, some 5, some 480, some 72⟩)
      (Or.inr ⟨⟨none, some 5, some 480, some 72⟩, rfl, Or.inl rfl⟩)).1,
    by decide⟩
